import Mathlib

/-!
Verification of the connection-slot manager and streaming scheduler of the
Arduino R4 WiFi Server-Side-Events sketch (`AR4_ServerSideEvents.ino`).

The embedding below translates the stateful C++ sketch into pure Lean
functions.  A slot of the connection pool (`struct SseDataClient`) becomes a
Lean structure; the `WiFiClient` transport handle is abstracted to a numeric
connection identifier together with a connectedness flag; `millis()` becomes
an explicit `now : Nat` argument; 32-bit `unsigned long` subtraction is
modelled by `usub`, wrapping subtraction modulo 2^32.
-/

/-- Pool capacity, `#define MAX_SSE_DATA_CLIENTS 3` in the sketch. -/
def MAX_SSE_DATA_CLIENTS : Nat := 3

/-- Configured session limit, `const unsigned long CONNECTION_TIME_LIMIT_SECONDS = 20`. -/
def CONNECTION_TIME_LIMIT_SECONDS : Nat := 20

/-- Configured push interval, `const unsigned long CONNECTION_UPDATE_RATE_MILLISECONDS = 100`. -/
def CONNECTION_UPDATE_RATE_MILLISECONDS : Nat := 100

/-- Modulus of the Arduino `unsigned long` type (32 bits). -/
def MOD32 : Nat := 2 ^ 32

/-- Wrapping subtraction of 32-bit unsigned values, the semantics of
`a - b` on `unsigned long` operands in the sketch (`millis() - timeOfLastUpdate`
and `millis() - timeOfFirstUpdate`). -/
def usub (a b : Nat) : Nat := (MOD32 + a % MOD32 - b % MOD32) % MOD32

/-- One entry of the connection pool, `struct SseDataClient`.  The
`WiFiClient client` member is abstracted to the identity of the underlying
transport connection (`clientId`, compared where the sketch compares
`WiFiClient` objects with `==`) plus the result of `client.connected()`
(`connected`).  `pageRequest` is the accumulated request text (`String`),
kept as a list of characters. -/
structure SseDataClient where
  clientId : Nat
  connected : Bool
  timeOfFirstUpdate : Nat
  timeOfLastUpdate : Nat
  pageRequest : List Char
deriving DecidableEq

/-- A freshly initialised pool slot: no connection, zero timestamps,
empty request text (global zero-initialisation of `dataClient[]`). -/
def emptySlot : SseDataClient :=
  { clientId := 0, connected := false, timeOfFirstUpdate := 0,
    timeOfLastUpdate := 0, pageRequest := [] }

/-- Substring containment test, the embedding of
`String.indexOf(token) > -1` used by the dispatch in `loop()`. -/
def containsToken (token : List Char) : List Char → Bool
  | [] => token.isEmpty
  | c :: rest => token.isPrefixOf (c :: rest) || containsToken token rest

/-- The root-page request token `"GET / HTTP"` tested at line 542. -/
def pageToken : List Char := ("GET / HTTP").toList

/-- The event-stream request token `"event-stream"` tested at line 570. -/
def streamToken : List Char := ("event-stream").toList

/-- Dispatch of a completed request head, lines 541-590 of `loop()`.
First `if`: a buffer containing `"GET / HTTP"` gets the web page, the
connection is stopped and both timestamps and the buffer are cleared.
Second `if` (evaluated on the possibly-cleared buffer, exactly as in the
source): a buffer containing `"event-stream"` starts a stream, setting
`timeOfFirstUpdate = millis()` and `timeOfLastUpdate = timeOfFirstUpdate`
and clearing the buffer.  Returns (page response sent, stream started,
resulting slot). -/
def dispatchRequest (s : SseDataClient) (now : Nat) : Bool × Bool × SseDataClient :=
  let pageHit := containsToken pageToken s.pageRequest
  let s1 := if pageHit then
      { s with connected := false, timeOfFirstUpdate := 0,
               timeOfLastUpdate := 0, pageRequest := [] }
    else s
  let streamHit := containsToken streamToken s1.pageRequest
  let s2 := if streamHit then
      { s1 with timeOfFirstUpdate := now, timeOfLastUpdate := now,
                pageRequest := [] }
    else s1
  (pageHit, streamHit, s2)

/-- Per-byte update of the `currentLineIsBlank` flag, lines 591-597 of
`loop()`: a line-feed re-arms the flag, any other non-carriage-return
character clears it, a carriage-return leaves it unchanged. -/
def updateBlank (blank : Bool) (c : Char) : Bool :=
  if c = '\n' then true
  else if c ≠ '\r' then false
  else blank

/-- Flag state after feeding a byte sequence, starting from a given flag. -/
def blankAfter (blank : Bool) (l : List Char) : Bool :=
  l.foldl updateBlank blank

/-- Position of the end-of-request-head signal in a byte sequence: the
sketch fires on `c == '\n' && currentLineIsBlank` (line 527), checked
before the flag update, and stops consuming (`break`).  Returns the index
of the byte on which the signal fires, if any. -/
def findBoundary (blank : Bool) : List Char → Option Nat
  | [] => none
  | c :: rest =>
    if c = '\n' ∧ blank then some 0
    else (findBoundary (updateBlank blank c) rest).map (· + 1)

/-- Spec-side characterization of the blank-line flag, stated from the
spec's words "the boundary is two consecutive line terminators,
carriage-returns ignored": the flag is set exactly when the last
non-carriage-return character seen so far (line-feed if none) is a
line-feed. -/
def lineBlankSpec (l : List Char) : Bool :=
  (l.filter (fun c => c != '\r')).getLastD '\n' == '\n'

/-- Push half of `UpdateEventStreamAtStreamInterval`, lines 346-355:
if the transport is connected and `millis() - timeOfLastUpdate` exceeds the
update interval, refresh `timeOfLastUpdate` and send one event payload.
Returns (payload written, resulting slot). -/
def pushStep (s : SseDataClient) (now millisecondUpdateTime : Nat) :
    Bool × SseDataClient :=
  if s.connected then
    if usub now s.timeOfLastUpdate > millisecondUpdateTime then
      (true, { s with timeOfLastUpdate := now })
    else (false, s)
  else (false, s)

/-- Timeout half of `UpdateEventStreamAtStreamInterval`, lines 357-373:
if the transport is connected and `millis() - timeOfFirstUpdate` exceeds the
session limit in milliseconds, stop the client and zero both timestamps. -/
def timeoutStep (s : SseDataClient) (now connectionTimeLimitSeconds : Nat) :
    SseDataClient :=
  if s.connected then
    if usub now s.timeOfFirstUpdate > connectionTimeLimitSeconds * 1000 then
      { s with connected := false, timeOfFirstUpdate := 0, timeOfLastUpdate := 0 }
    else s
  else s

/-- `UpdateEventStreamAtStreamInterval`, lines 344-375: the push check
followed by the session-timeout check, both guarded by connectedness
(the push does not change connectedness, so sequencing the two guarded
halves is equivalent to the source's single outer `if`).  Returns
(payload written this call, resulting slot). -/
def UpdateEventStreamAtStreamInterval (s : SseDataClient)
    (now millisecondUpdateTime connectionTimeLimitSeconds : Nat) :
    Bool × SseDataClient :=
  let p := pushStep s now millisecondUpdateTime
  (p.1, timeoutStep p.2 now connectionTimeLimitSeconds)

/-- Accumulator of the first `for` loop of `SelectNextClient`, lines 382-405:
`selectedClientIndex` (initially `-1`), `oldestConnectionTime` (initially
`millis()`), `oldestConnectionIndex` (initially `0`). -/
structure ScanState where
  selectedClientIndex : Int
  oldestConnectionTime : Nat
  oldestConnectionIndex : Nat
deriving DecidableEq

/-- One iteration of the first `for` loop of `SelectNextClient`, lines
390-405: a connected slot competes for the oldest `timeOfFirstUpdate`,
a disconnected slot becomes the selected free channel. -/
def scanStep (pool : List SseDataClient) (st : ScanState) (i : Nat) : ScanState :=
  let sl := pool.getD i emptySlot
  if sl.connected then
    if sl.timeOfFirstUpdate < st.oldestConnectionTime then
      { st with oldestConnectionTime := sl.timeOfFirstUpdate,
                oldestConnectionIndex := i }
    else st
  else { st with selectedClientIndex := (i : Int) }

/-- The whole first `for` loop of `SelectNextClient` over slot indices
`0 .. MAX_SSE_DATA_CLIENTS-1`, from the initial state
`(-1, millis(), 0)` (lines 382-405). -/
def scanSlots (pool : List SseDataClient) (now : Nat) : ScanState :=
  (List.range MAX_SSE_DATA_CLIENTS).foldl (scanStep pool)
    { selectedClientIndex := -1, oldestConnectionTime := now,
      oldestConnectionIndex := 0 }

/-- The second `for` loop of `SelectNextClient`, lines 423-430: first slot
whose `client` equals the pending connection (`nextClient == dataClient[i].client`),
breaking on the first match. -/
def findMatching (pool : List SseDataClient) (h : Nat) : Option Nat :=
  (List.range MAX_SSE_DATA_CLIENTS).find?
    (fun i => (pool.getD i emptySlot).clientId == h)

/-- `SelectNextClient`, lines 378-448.  `pending` is the result of
`server.available()`: `some h` when a connection with pending data (handle
identity `h`) was returned, `none` otherwise.  The assignment
`dataClient[selectedClientIndex].client = nextClient` is modelled as the
slot adopting the pending handle, which is a live (connected) transport.
Returns (selected index, resulting pool). -/
def SelectNextClient (pool : List SseDataClient) (now : Nat)
    (pending : Option Nat) : Int × List SseDataClient :=
  let st := scanSlots pool now
  let sel1 : Int :=
    if st.selectedClientIndex = -1 then (st.oldestConnectionIndex : Int)
    else st.selectedClientIndex
  match pending with
  | none => (sel1, pool)
  | some h =>
    let sel2 : Int :=
      match findMatching pool h with
      | some i => (i : Int)
      | none => sel1
    (sel2, pool.set sel2.toNat
      { pool.getD sel2.toNat emptySlot with clientId := h, connected := true })

/-- The openness test of `SelectCurrentClient`, line 474:
`client.connected() && timeOfFirstUpdate > 0`. -/
def slotStreaming (s : SseDataClient) : Bool :=
  s.connected && decide (0 < s.timeOfFirstUpdate)

/-- The `for` loop of `SelectCurrentClient`, lines 468-481: advance the
static cursor by one modulo `MAX_SSE_DATA_CLIENTS`, select the slot there
if it is open for SSE, else keep scanning; the fuel argument is the loop
counter `i`.  Returns (selected index or `-1`, final cursor value). -/
def selectAux (pool : List SseDataClient) (cc : Nat) : Nat → Int × Nat
  | 0 => (-1, cc)
  | n + 1 =>
    let cc1 := (cc + 1) % MAX_SSE_DATA_CLIENTS
    if slotStreaming (pool.getD cc1 emptySlot) then ((cc1 : Int), cc1)
    else selectAux pool cc1 n

/-- `SelectCurrentClient`, lines 459-484.  The `static int
connectedClientIndex` is modelled as explicit state threaded through the
call: `cc` is its value on entry, the second component of the result its
value on return. -/
def SelectCurrentClient (pool : List SseDataClient) (cc : Nat) : Int × Nat :=
  selectAux pool cc MAX_SSE_DATA_CLIENTS

/-- Selections produced by `n` consecutive calls of `SelectCurrentClient`
on a fixed pool, threading the static cursor between the calls. -/
def selectRun (pool : List SseDataClient) (cc : Nat) : Nat → List Int
  | 0 => []
  | n + 1 =>
    let r := SelectCurrentClient pool cc
    r.1 :: selectRun pool r.2 n

/-- Reachable states of one pool slot under the sketch's operations, with
an explicit clock `t` (the value `millis()` would return): the slot starts
zero-initialised at time `0`; time only moves forward; admission
(`dataClient[i].client = nextClient`, line 436) installs a live handle;
the transport may drop at any moment; a received byte is appended to the
request text (`pageRequest = pageRequest + c`, line 522); a completed
request head is dispatched (`loop()` lines 541-590); a scheduler visit
runs `UpdateEventStreamAtStreamInterval`. -/
inductive Reach : Nat → SseDataClient → Prop where
  | init : Reach 0 emptySlot
  | tick {t t' : Nat} {s : SseDataClient} : Reach t s → t ≤ t' → Reach t' s
  | adopt {t : Nat} {s : SseDataClient} (h : Nat) :
      Reach t s → Reach t { s with clientId := h, connected := true }
  | drop {t : Nat} {s : SseDataClient} :
      Reach t s → Reach t { s with connected := false }
  | read {t : Nat} {s : SseDataClient} (c : Char) :
      Reach t s → Reach t { s with pageRequest := s.pageRequest ++ [c] }
  | dispatch {t : Nat} {s : SseDataClient} :
      Reach t s → Reach t (dispatchRequest s t).2.2
  | update {t : Nat} {s : SseDataClient} (upd lim : Nat) :
      Reach t s → Reach t (UpdateEventStreamAtStreamInterval s t upd lim).2

/-! ## Concrete slots used by witnesses and counterexamples -/

/-- A slot holding a live stream that started at time 5. -/
def streamingSlotA : SseDataClient :=
  { clientId := 1, connected := true, timeOfFirstUpdate := 5,
    timeOfLastUpdate := 5, pageRequest := [] }

/-- A connected slot whose accumulated request text matches neither token. -/
def unhandledSlot : SseDataClient :=
  { clientId := 2, connected := true, timeOfFirstUpdate := 0,
    timeOfLastUpdate := 0, pageRequest := ("HELLO").toList }

/-- A connected slot whose request text contains both request tokens. -/
def bothTokenSlot : SseDataClient :=
  { clientId := 3, connected := true, timeOfFirstUpdate := 0,
    timeOfLastUpdate := 0,
    pageRequest := ("GET / HTTP/1.1 Accept: text/event-stream").toList }

/-! ## Claim theorems -/

/-- C3: classification precedence.  For every completed request buffer that
contains both the root-page token `"GET / HTTP"` and the event-stream token
`"event-stream"`, the dispatch takes the serve-page path (page response
emitted, connection closed) and does not also start a stream: the page
branch clears `pageRequest` before the event-stream check runs, so the page
route takes precedence, matching source order. -/
theorem loop_classification_precedence (s : SseDataClient) (now : Nat)
    (hp : containsToken pageToken s.pageRequest = true)
    (hs : containsToken streamToken s.pageRequest = true) :
    (dispatchRequest s now).1 = true ∧
    (dispatchRequest s now).2.1 = false ∧
    (dispatchRequest s now).2.2.connected = false := by
  have hempty : containsToken streamToken ([] : List Char) = false := by decide
  simp [dispatchRequest, hp, hempty]

/-- Witness for C3 on a concrete request containing both tokens. -/
theorem loop_classification_precedence_witness :
    (dispatchRequest bothTokenSlot 9).1 = true ∧
    (dispatchRequest bothTokenSlot 9).2.1 = false ∧
    (dispatchRequest bothTokenSlot 9).2.2.connected = false :=
  loop_classification_precedence bothTokenSlot 9 (by decide) (by decide)

/-- C4: session timeout.  For every slot whose stream has been open longer
than the session limit (`millis() - timeOfFirstUpdate >
connectionTimeLimitSeconds*1000`), the next call of
`UpdateEventStreamAtStreamInterval` that evaluates it closes the transport
and zeroes `timeOfFirstUpdate` and `timeOfLastUpdate`, regardless of how
recently a push was sent, even if a push occurred in the same call. -/
theorem updateEventStream_session_timeout (s : SseDataClient)
    (now upd lim : Nat) (hc : s.connected = true)
    (ht : usub now s.timeOfFirstUpdate > lim * 1000) :
    (UpdateEventStreamAtStreamInterval s now upd lim).2.connected = false ∧
    (UpdateEventStreamAtStreamInterval s now upd lim).2.timeOfFirstUpdate = 0 ∧
    (UpdateEventStreamAtStreamInterval s now upd lim).2.timeOfLastUpdate = 0 := by
  simp only [UpdateEventStreamAtStreamInterval, pushStep, timeoutStep, hc, if_true]
  split_ifs <;> simp_all

/-- Witness for C4: a stream begun at time 5, evaluated at time 21001 with
the configured 20-second limit (and a push due in the same call). -/
theorem updateEventStream_session_timeout_witness :
    (UpdateEventStreamAtStreamInterval streamingSlotA 21001
        CONNECTION_UPDATE_RATE_MILLISECONDS CONNECTION_TIME_LIMIT_SECONDS).2.connected = false ∧
    (UpdateEventStreamAtStreamInterval streamingSlotA 21001
        CONNECTION_UPDATE_RATE_MILLISECONDS CONNECTION_TIME_LIMIT_SECONDS).2.timeOfFirstUpdate = 0 ∧
    (UpdateEventStreamAtStreamInterval streamingSlotA 21001
        CONNECTION_UPDATE_RATE_MILLISECONDS CONNECTION_TIME_LIMIT_SECONDS).2.timeOfLastUpdate = 0 :=
  updateEventStream_session_timeout streamingSlotA 21001
    CONNECTION_UPDATE_RATE_MILLISECONDS CONNECTION_TIME_LIMIT_SECONDS rfl (by decide)

/-- C8: push gating.  For the slot the scheduler selected this tick, an
event payload is written if and only if the transport is connected and
`millis() - timeOfLastUpdate` exceeds the push interval; when written,
`timeOfLastUpdate` is set to the current time; when the interval has not
elapsed (or the slot is not connected), the slot is untouched by the push
check; and the payload flag of the whole
`UpdateEventStreamAtStreamInterval` call is exactly the push check's flag. -/
theorem pushStep_gating (s : SseDataClient) (now interval lim : Nat) :
    ((pushStep s now interval).1 = true ↔
      (s.connected = true ∧ usub now s.timeOfLastUpdate > interval)) ∧
    ((pushStep s now interval).1 = true →
      (pushStep s now interval).2.timeOfLastUpdate = now) ∧
    ((pushStep s now interval).1 = false → (pushStep s now interval).2 = s) ∧
    (UpdateEventStreamAtStreamInterval s now interval lim).1 =
      (pushStep s now interval).1 := by
  refine ⟨?_, ?_, ?_, rfl⟩ <;>
    simp only [pushStep] <;> split_ifs <;> simp_all

/-- Witness for C8: a due, connected slot gets its `timeOfLastUpdate`
refreshed to the current time. -/
theorem pushStep_gating_witness :
    (pushStep streamingSlotA 500 100).2.timeOfLastUpdate = 500 :=
  (pushStep_gating streamingSlotA 500 100 20).2.1 (by decide)

/-- Counterexample to C6 as stated: a completed request head matching
neither token leaves `pageRequest` unchanged; it is not cleared before the
next tick (no branch of the dispatch touches it). -/
theorem loop_unhandled_request_not_cleared :
    (dispatchRequest unhandledSlot 7).1 = false ∧
    (dispatchRequest unhandledSlot 7).2.1 = false ∧
    (dispatchRequest unhandledSlot 7).2.2.pageRequest ≠ [] := by decide

/-- C6 (amended): for every completed request head whose accumulated text
contains neither the root-page token nor the event-stream token, no
response bytes are written and the slot — including its `pageRequest`
buffer — is left entirely unchanged: the buffer is retained, not cleared.
The buffer is cleared exactly on the two matched paths. -/
theorem loop_unhandled_request_buffer (s : SseDataClient) (now : Nat)
    (hp : containsToken pageToken s.pageRequest = false)
    (hs : containsToken streamToken s.pageRequest = false) :
    dispatchRequest s now = (false, false, s) := by
  simp [dispatchRequest, hp, hs]

/-- Witness for amended C6 on a concrete unmatched request. -/
theorem loop_unhandled_request_buffer_witness :
    dispatchRequest unhandledSlot 7 = (false, false, unhandledSlot) :=
  loop_unhandled_request_buffer unhandledSlot 7 (by decide) (by decide)

/-! ## Request-boundary detection (C2) -/

theorem blankAfter_nil (b : Bool) : blankAfter b [] = b := rfl

theorem blankAfter_cons (b : Bool) (c : Char) (l : List Char) :
    blankAfter b (c :: l) = blankAfter (updateBlank b c) l := rfl

/-- Helper: testing a list's last element against a line-feed is
insensitive to how a boolean default is encoded as a character. -/
theorem getLastD_newline_default (ft : List Char) (c : Char) :
    ((ft.getLastD (if c == '\n' then '\n' else 'x')) == '\n') =
      (ft.getLastD c == '\n') := by
  cases ft with
  | nil =>
    by_cases hc : c = '\n' <;> simp [hc]
  | cons d rest => rw [List.getLastD_cons, List.getLastD_cons]

/-- The blank-line flag after a byte sequence is determined by the last
non-carriage-return byte: line-feed (or none at all) leaves it where a
blank line would, anything else clears it. -/
theorem blankAfter_filter (l : List Char) (b : Bool) :
    blankAfter b l =
      ((l.filter (fun c => c != '\r')).getLastD (if b then '\n' else 'x') == '\n') := by
  induction l generalizing b with
  | nil => cases b <;> simp [blankAfter_nil]
  | cons c t ih =>
    rw [blankAfter_cons]
    by_cases hc : c = '\r'
    · subst hc
      have hub : updateBlank b '\r' = b := by simp [updateBlank]
      rw [hub, ih b]
      simp [List.filter_cons]
    · have hfc : (c :: t).filter (fun c => c != '\r') =
          c :: t.filter (fun c => c != '\r') := by
        simp [List.filter_cons, hc]
      have hub : updateBlank b c = (c == '\n') := by
        by_cases hcn : c = '\n' <;> simp [updateBlank, hcn, hc]
      rw [ih (updateBlank b c), hfc, List.getLastD_cons, hub,
        getLastD_newline_default]

/-- The scanner fires exactly at the first position carrying a line-feed
read while the blank-line flag is set, and not before. -/
theorem findBoundary_iff : ∀ (s : List Char) (b : Bool) (k : Nat),
    findBoundary b s = some k ↔
      k < s.length ∧ s.getD k ' ' = '\n' ∧ blankAfter b (s.take k) = true ∧
      ∀ j, j < k → ¬(s.getD j ' ' = '\n' ∧ blankAfter b (s.take j) = true)
  | [], b, k => by simp [findBoundary]
  | c :: t, b, k => by
    rw [findBoundary]
    split_ifs with h
    · constructor
      · intro he
        have hk0 : k = 0 := by
          have := Option.some.inj he; omega
        subst hk0
        exact ⟨by simp, by simpa using h.1, by simpa using h.2, by omega⟩
      · rintro ⟨hk, hg, hb, hj⟩
        rcases Nat.eq_zero_or_pos k with rfl | hpos
        · rfl
        · exact absurd ⟨by simpa using h.1, by simpa using h.2⟩ (hj 0 hpos)
    · constructor
      · intro he
        rcases Option.map_eq_some'.mp he with ⟨k', hk', rfl⟩
        have ih := (findBoundary_iff t (updateBlank b c) k').mp hk'
        refine ⟨by simpa using ih.1, by simpa using ih.2.1,
          by simpa using ih.2.2.1, ?_⟩
        intro j hj
        cases j with
        | zero =>
          intro hcontra
          exact h ⟨by simpa using hcontra.1, by simpa using hcontra.2⟩
        | succ j' =>
          intro hcontra
          exact ih.2.2.2 j' (by omega)
            ⟨by simpa using hcontra.1, by simpa using hcontra.2⟩
      · rintro ⟨hk, hg, hb, hj⟩
        cases k with
        | zero => exact absurd ⟨by simpa using hg, by simpa using hb⟩ h
        | succ k' =>
          have hrec : findBoundary (updateBlank b c) t = some k' :=
            (findBoundary_iff t (updateBlank b c) k').mpr
              ⟨by simpa using hk, by simpa using hg, by simpa using hb,
               fun j hjlt hcontra => hj (j + 1) (by omega)
                 ⟨by simpa using hcontra.1, by simpa using hcontra.2⟩⟩
          simp [hrec]

/-- C2: request-boundary detection.  The per-byte flag update follows the
source exactly (line-feed re-arms the flag, carriage-return leaves it,
anything else clears it); starting from a blank line, the flag is set
exactly when the last non-carriage-return byte so far is a line-feed (two
consecutive line terminators, carriage-returns ignored, `lineBlankSpec`);
and the end-of-request-head signal fires exactly at the first line-feed
read while the flag is set, and not before. -/
theorem loop_request_boundary :
    (∀ b : Bool, updateBlank b '\n' = true) ∧
    (∀ b : Bool, updateBlank b '\r' = b) ∧
    (∀ (b : Bool) (c : Char), c ≠ '\n' → c ≠ '\r' → updateBlank b c = false) ∧
    (∀ l : List Char, blankAfter true l = lineBlankSpec l) ∧
    (∀ (s : List Char) (k : Nat),
      findBoundary true s = some k ↔
        k < s.length ∧ s.getD k ' ' = '\n' ∧
        blankAfter true (s.take k) = true ∧
        ∀ j, j < k →
          ¬(s.getD j ' ' = '\n' ∧ blankAfter true (s.take j) = true)) := by
  refine ⟨?_, ?_, ?_, ?_, fun s k => findBoundary_iff s true k⟩
  · intro b; simp [updateBlank]
  · intro b; simp [updateBlank]
  · intro b c hn hr; simp [updateBlank, hn, hr]
  · intro l
    rw [blankAfter_filter l true, lineBlankSpec]
    simp

/-- Witness for C2: the boundary of a concrete root-page request fires on
the final line-feed of the blank line, index 17, and at no earlier index. -/
theorem loop_request_boundary_witness :
    findBoundary true (("GET / HTTP/1.1\r\n\r\n").toList) = some 17 := by
  refine (loop_request_boundary.2.2.2.2 (("GET / HTTP/1.1\r\n\r\n").toList) 17).mpr
    ⟨by decide, by decide, by decide, by decide⟩

/-! ## Scheduler cursor and fairness (C5, C7) -/

/-- Counterexample to C7 as stated: with only slot 2 streaming and the
cursor at 0, one call of `SelectCurrentClient` leaves the cursor at 2, not
at `(0 + 1) % MAX_SSE_DATA_CLIENTS = 1` — the persistent cursor does not
advance by exactly one position per tick; it ends at the selected slot. -/
theorem selectCurrentClient_cursor_not_one_step :
    (SelectCurrentClient [emptySlot, emptySlot, streamingSlotA] 0).2 ≠
      (0 + 1) % MAX_SSE_DATA_CLIENTS := by decide

/-- C7 (amended): the round-robin cursor is persistent state threaded
between calls (never reset at call start); each call scans at most
`MAX_SSE_DATA_CLIENTS` slots starting from the position one past the
cursor, advancing the cursor with each examined slot, and stops at the
first slot open for SSE even if several are; consequently, when no slot
is streaming the call returns `-1` with the cursor back at its prior
value, and when the first streaming slot in cyclic order from `cursor+1`
is at offset `k`, the call selects it and leaves the cursor on it. -/
theorem selectCurrentClient_cursor (a b c : SseDataClient) (cur : Nat)
    (hcur : cur < MAX_SSE_DATA_CLIENTS) :
    ((∀ i, i < MAX_SSE_DATA_CLIENTS →
        slotStreaming (([a, b, c]).getD i emptySlot) = false) →
      SelectCurrentClient [a, b, c] cur = (-1, cur)) ∧
    (∀ k, k < MAX_SSE_DATA_CLIENTS →
      slotStreaming (([a, b, c]).getD ((cur + 1 + k) % MAX_SSE_DATA_CLIENTS) emptySlot) = true →
      (∀ j, j < k →
        slotStreaming (([a, b, c]).getD ((cur + 1 + j) % MAX_SSE_DATA_CLIENTS) emptySlot) = false) →
      SelectCurrentClient [a, b, c] cur =
        ((((cur + 1 + k) % MAX_SSE_DATA_CLIENTS : Nat) : Int),
          (cur + 1 + k) % MAX_SSE_DATA_CLIENTS)) := by
  simp only [MAX_SSE_DATA_CLIENTS] at hcur ⊢
  cases ha : slotStreaming a <;> cases hb : slotStreaming b <;>
    cases hc : slotStreaming c <;> interval_cases cur <;>
    refine ⟨fun hall => ?_, fun k hk hs hprev => ?_⟩ <;>
    first
    | (have h0 := hall 0 (by norm_num)
       have h1 := hall 1 (by norm_num)
       have h2 := hall 2 (by norm_num)
       simp only [List.getD_cons_zero, List.getD_cons_succ] at h0 h1 h2
       simp_all [SelectCurrentClient, selectAux, MAX_SSE_DATA_CLIENTS]
       done)
    | (interval_cases k <;>
       first
       | (simp_all [SelectCurrentClient, selectAux, MAX_SSE_DATA_CLIENTS]
          done)
       | (have hp0 := hprev 0 (by norm_num)
          simp_all [SelectCurrentClient, selectAux, MAX_SSE_DATA_CLIENTS]
          done)
       | (have hp0 := hprev 0 (by norm_num)
          have hp1 := hprev 1 (by norm_num)
          simp_all [SelectCurrentClient, selectAux, MAX_SSE_DATA_CLIENTS]
          done))

/-- Witness for amended C7: cursor 0, only slot 2 streaming, offset
`k = 1`: the call selects slot 2 and leaves the cursor there. -/
theorem selectCurrentClient_cursor_witness :
    SelectCurrentClient [emptySlot, emptySlot, streamingSlotA] 0 = (2, 2) :=
  (selectCurrentClient_cursor emptySlot emptySlot streamingSlotA 0
    (by decide)).2 1 (by decide) (by decide) (by decide)

/-- Proof device: the scheduler scan seen through the per-slot streaming
booleans only; `selectAux_toB` proves it agrees with `selectAux` on
three-slot pools. -/
def selectAuxB (sv : List Bool) (cc : Nat) : Nat → Int × Nat
  | 0 => (-1, cc)
  | n + 1 =>
    let cc1 := (cc + 1) % MAX_SSE_DATA_CLIENTS
    if sv.getD cc1 false then ((cc1 : Int), cc1)
    else selectAuxB sv cc1 n

/-- Proof device: `selectRun` seen through the streaming booleans. -/
def selectRunB (sv : List Bool) (cc : Nat) : Nat → List Int
  | 0 => []
  | n + 1 =>
    let r := selectAuxB sv cc MAX_SSE_DATA_CLIENTS
    r.1 :: selectRunB sv r.2 n

theorem streaming_getD (a b c : SseDataClient) : ∀ i : Nat,
    slotStreaming (([a, b, c]).getD i emptySlot) =
      ([slotStreaming a, slotStreaming b, slotStreaming c]).getD i false
  | 0 => rfl
  | 1 => rfl
  | 2 => rfl
  | n + 3 => rfl

theorem selectAux_toB (a b c : SseDataClient) : ∀ (fuel cc : Nat),
    selectAux [a, b, c] cc fuel =
      selectAuxB [slotStreaming a, slotStreaming b, slotStreaming c] cc fuel
  | 0, _ => rfl
  | n + 1, cc => by
    rw [selectAux, selectAuxB, streaming_getD a b c]
    by_cases h : ([slotStreaming a, slotStreaming b, slotStreaming c]).getD
        ((cc + 1) % MAX_SSE_DATA_CLIENTS) false = true
    · simp only [h, if_true]
    · simp only [h, if_false, Bool.false_eq_true, selectAux_toB a b c n]

theorem selectRun_toB (a b c : SseDataClient) : ∀ (n cc : Nat),
    selectRun [a, b, c] cc n =
      selectRunB [slotStreaming a, slotStreaming b, slotStreaming c] cc n
  | 0, _ => rfl
  | n + 1, cc => by
    rw [selectRun, selectRunB, SelectCurrentClient, selectAux_toB a b c,
      selectRun_toB a b c n]

set_option synthInstance.maxSize 2000
set_option maxHeartbeats 1000000

/-- C5: round-robin fairness.  With a fixed pool (no new admissions) over
`MAX_SSE_DATA_CLIENTS` consecutive calls of `SelectCurrentClient`
(threading the persistent cursor), every streaming slot — connected with
`timeOfFirstUpdate > 0` — is selected at least once, and no streaming slot
is selected twice before every other streaming slot has been selected
once: by the position of a repeated selection, every other streaming slot
already appears among the earlier selections. -/
theorem selectCurrentClient_fairness (a b c : SseDataClient) (cur : Nat)
    (hcur : cur < MAX_SSE_DATA_CLIENTS) :
    (∀ i, i < MAX_SSE_DATA_CLIENTS →
      slotStreaming (([a, b, c]).getD i emptySlot) = true →
      ((i : Nat) : Int) ∈ selectRun [a, b, c] cur MAX_SSE_DATA_CLIENTS) ∧
    (∀ q, q < MAX_SSE_DATA_CLIENTS → ∀ p, p < q →
      (selectRun [a, b, c] cur MAX_SSE_DATA_CLIENTS).getD p (-1) =
        (selectRun [a, b, c] cur MAX_SSE_DATA_CLIENTS).getD q (-1) →
      ∀ j, j < MAX_SSE_DATA_CLIENTS →
        slotStreaming (([a, b, c]).getD j emptySlot) = true →
        ((j : Nat) : Int) ≠ (selectRun [a, b, c] cur MAX_SSE_DATA_CLIENTS).getD p (-1) →
        ((j : Nat) : Int) ∈ (selectRun [a, b, c] cur MAX_SSE_DATA_CLIENTS).take q) := by
  simp only [MAX_SSE_DATA_CLIENTS] at hcur
  simp only [selectRun_toB a b c, streaming_getD a b c]
  cases ha : slotStreaming a <;> cases hb : slotStreaming b <;>
    cases hc : slotStreaming c <;> interval_cases cur <;> decide

set_option synthInstance.maxSize 128
set_option maxHeartbeats 200000

/-- Witness for C5: slots 0 and 1 streaming, cursor 0: the three
selections are `[1, 0, 1]`; slot 0 is selected, and by the repeat of
slot 1 at position 2, slot 0 already appears among the first two
selections. -/
theorem selectCurrentClient_fairness_witness :
    ((0 : Int) ∈ selectRun [streamingSlotA,
        { streamingSlotA with clientId := 2, timeOfFirstUpdate := 9 },
        emptySlot] 0 MAX_SSE_DATA_CLIENTS) ∧
    ((0 : Int) ∈ (selectRun [streamingSlotA,
        { streamingSlotA with clientId := 2, timeOfFirstUpdate := 9 },
        emptySlot] 0 MAX_SSE_DATA_CLIENTS).take 2) := by
  have h := selectCurrentClient_fairness streamingSlotA
    { streamingSlotA with clientId := 2, timeOfFirstUpdate := 9 }
    emptySlot 0 (by decide)
  exact ⟨h.1 0 (by decide) (by decide),
    h.2 2 (by decide) 0 (by decide) (by decide) 0 (by decide) (by decide) (by decide)⟩

/-! ## Admission policy (C1, C9) -/

theorem scanSlots_eq (a b c : SseDataClient) (now : Nat) :
    scanSlots [a, b, c] now =
      scanStep [a, b, c] (scanStep [a, b, c] (scanStep [a, b, c]
        { selectedClientIndex := -1, oldestConnectionTime := now,
          oldestConnectionIndex := 0 } 0) 1) 2 := rfl

theorem findMatching_eq (pool : List SseDataClient) (hId : Nat) :
    findMatching pool hId =
      (if (pool.getD 0 emptySlot).clientId == hId then some 0
       else if (pool.getD 1 emptySlot).clientId == hId then some 1
       else if (pool.getD 2 emptySlot).clientId == hId then some 2
       else none) := by
  have h3 : List.range MAX_SSE_DATA_CLIENTS = [0, 1, 2] := rfl
  rw [findMatching, h3]
  rcases h0 : (pool.getD 0 emptySlot).clientId == hId <;>
    rcases h1 : (pool.getD 1 emptySlot).clientId == hId <;>
    rcases h2 : (pool.getD 2 emptySlot).clientId == hId <;>
    (simp only [List.getD, List.get?_eq_getElem?] at h0 h1 h2 ⊢
     simp [List.find?, h0, h1, h2])

/-- The index computed by the first phase of `SelectNextClient` (free slot
if any was seen, else the oldest-connection fallback) lies in `0..2`. -/
theorem scanSlots_sel1_range (a b c : SseDataClient) (now : Nat) :
    0 ≤ (if (scanSlots [a, b, c] now).selectedClientIndex = -1 then
          ((scanSlots [a, b, c] now).oldestConnectionIndex : Int)
         else (scanSlots [a, b, c] now).selectedClientIndex) ∧
    (if (scanSlots [a, b, c] now).selectedClientIndex = -1 then
          ((scanSlots [a, b, c] now).oldestConnectionIndex : Int)
         else (scanSlots [a, b, c] now).selectedClientIndex) < 3 := by
  rw [scanSlots_eq]
  cases hca : a.connected <;> cases hcb : b.connected <;> cases hcc : c.connected <;>
    simp only [scanStep, List.getD_cons_zero, List.getD_cons_succ, hca, hcb, hcc,
      Bool.false_eq_true, if_true, if_false] <;>
    split_ifs <;> simp_all <;> omega

/-- C9: totality of admission selection.  For every pool state — any
combination of connected and disconnected slots, any timestamp values —
and whether or not a connection is pending, `SelectNextClient` returns an
index in `0 .. MAX_SSE_DATA_CLIENTS - 1`: never out of range, and it is a
total function (never blocks, never fails). -/
theorem selectNextClient_total (a b c : SseDataClient) (now : Nat)
    (pending : Option Nat) :
    0 ≤ (SelectNextClient [a, b, c] now pending).1 ∧
    (SelectNextClient [a, b, c] now pending).1 < (MAX_SSE_DATA_CLIENTS : Int) := by
  have hrange := scanSlots_sel1_range a b c now
  cases pending with
  | none =>
    simp only [SelectNextClient]
    exact ⟨hrange.1, by exact_mod_cast hrange.2⟩
  | some hId =>
    simp only [SelectNextClient, findMatching_eq]
    split_ifs <;> simp_all [MAX_SSE_DATA_CLIENTS] <;> omega

set_option maxHeartbeats 2000000

/-- C1: admission policy of `SelectNextClient`.  For every pool state and
every pending connection: (capacity) the pool keeps exactly
`MAX_SSE_DATA_CLIENTS` slots, so at most that many connections are ever
tracked; (reuse) if the pending handle is already tracked by a slot, that
slot's index — the first such — is returned; (free) if the handle is new
and some slot's transport is not connected, the returned slot is a
disconnected one and the handle is installed there; (displace) if the
handle is new and every slot is connected, the returned slot attains the
smallest `timeOfFirstUpdate` in the pool (its timestamps being past times)
and is overwritten with the new handle. -/
theorem selectNextClient_admission (a b c : SseDataClient) (now hId : Nat) :
    (∀ pending, ((SelectNextClient [a, b, c] now pending).2).length = MAX_SSE_DATA_CLIENTS) ∧
    (∀ j, j < MAX_SSE_DATA_CLIENTS →
      (([a, b, c]).getD j emptySlot).clientId = hId →
      (∀ k, k < j → (([a, b, c]).getD k emptySlot).clientId ≠ hId) →
      (SelectNextClient [a, b, c] now (some hId)).1 = (j : Int)) ∧
    ((∀ k, k < MAX_SSE_DATA_CLIENTS → (([a, b, c]).getD k emptySlot).clientId ≠ hId) →
     (∃ k, k < MAX_SSE_DATA_CLIENTS ∧ (([a, b, c]).getD k emptySlot).connected = false) →
      (([a, b, c]).getD (SelectNextClient [a, b, c] now (some hId)).1.toNat
          emptySlot).connected = false ∧
      (((SelectNextClient [a, b, c] now (some hId)).2).getD
          (SelectNextClient [a, b, c] now (some hId)).1.toNat emptySlot).clientId = hId) ∧
    ((∀ k, k < MAX_SSE_DATA_CLIENTS → (([a, b, c]).getD k emptySlot).clientId ≠ hId) →
     (∀ k, k < MAX_SSE_DATA_CLIENTS → (([a, b, c]).getD k emptySlot).connected = true) →
     (∀ k, k < MAX_SSE_DATA_CLIENTS → (([a, b, c]).getD k emptySlot).timeOfFirstUpdate ≤ now) →
      (∀ k, k < MAX_SSE_DATA_CLIENTS →
        (([a, b, c]).getD (SelectNextClient [a, b, c] now (some hId)).1.toNat
            emptySlot).timeOfFirstUpdate ≤
          (([a, b, c]).getD k emptySlot).timeOfFirstUpdate) ∧
      (((SelectNextClient [a, b, c] now (some hId)).2).getD
          (SelectNextClient [a, b, c] now (some hId)).1.toNat emptySlot).clientId = hId) := by
  refine ⟨?_, ?_, ?_, ?_⟩
  · intro pending
    cases pending <;> simp [SelectNextClient, MAX_SSE_DATA_CLIENTS]
  · intro j hj hm he
    simp only [MAX_SSE_DATA_CLIENTS] at hj
    interval_cases j
    · simp only [List.getD_cons_zero] at hm
      simp [SelectNextClient, findMatching_eq, hm]
    · have h0 : a.clientId ≠ hId := by simpa using he 0 (by decide)
      simp only [List.getD_cons_succ, List.getD_cons_zero] at hm
      simp [SelectNextClient, findMatching_eq, hm, h0]
    · have h0 : a.clientId ≠ hId := by simpa using he 0 (by decide)
      have h1 : b.clientId ≠ hId := by simpa using he 1 (by decide)
      simp only [List.getD_cons_succ, List.getD_cons_zero] at hm
      simp [SelectNextClient, findMatching_eq, hm, h0, h1]
  · intro hno hex
    have h0 : a.clientId ≠ hId := by simpa using hno 0 (by decide)
    have h1 : b.clientId ≠ hId := by simpa using hno 1 (by decide)
    have h2 : c.clientId ≠ hId := by simpa using hno 2 (by decide)
    have hfm : findMatching [a, b, c] hId = none := by
      rw [findMatching_eq]; simp [h0, h1, h2]
    rcases hex with ⟨k, hk, hkc⟩
    simp only [MAX_SSE_DATA_CLIENTS] at hk
    simp only [SelectNextClient, hfm]
    cases hca : a.connected <;> cases hcb : b.connected <;> cases hcc : c.connected <;>
      first
      | (interval_cases k <;> simp_all
         done)
      | (rw [scanSlots_eq]
         simp only [scanStep, List.getD_cons_zero, List.getD_cons_succ, hca, hcb, hcc,
           Bool.false_eq_true, if_true, if_false]
         split_ifs <;> simp_all [List.set]
         done)
  · intro hno hcn htm
    have h0 : a.clientId ≠ hId := by simpa using hno 0 (by decide)
    have h1 : b.clientId ≠ hId := by simpa using hno 1 (by decide)
    have h2 : c.clientId ≠ hId := by simpa using hno 2 (by decide)
    have hfm : findMatching [a, b, c] hId = none := by
      rw [findMatching_eq]; simp [h0, h1, h2]
    have hca : a.connected = true := by simpa using hcn 0 (by decide)
    have hcb : b.connected = true := by simpa using hcn 1 (by decide)
    have hcc : c.connected = true := by simpa using hcn 2 (by decide)
    have ht0 : a.timeOfFirstUpdate ≤ now := by simpa using htm 0 (by decide)
    have ht1 : b.timeOfFirstUpdate ≤ now := by simpa using htm 1 (by decide)
    have ht2 : c.timeOfFirstUpdate ≤ now := by simpa using htm 2 (by decide)
    simp only [SelectNextClient, hfm]
    rw [scanSlots_eq]
    simp only [scanStep, List.getD_cons_zero, List.getD_cons_succ, hca, hcb, hcc, if_true]
    split_ifs <;>
      refine ⟨fun k hk => ?_, by simp [List.set]⟩ <;>
      (simp only [MAX_SSE_DATA_CLIENTS] at hk
       interval_cases k <;> simp_all <;> omega)

set_option maxHeartbeats 200000

/-- A slot tracking the live connection with handle identity 4. -/
def trackedSlot : SseDataClient :=
  { clientId := 4, connected := true, timeOfFirstUpdate := 7,
    timeOfLastUpdate := 7, pageRequest := [] }

/-- A connected slot whose stream started at time 5 (the pool's oldest). -/
def oldSlotB : SseDataClient :=
  { clientId := 2, connected := true, timeOfFirstUpdate := 5,
    timeOfLastUpdate := 5, pageRequest := [] }

/-- A connected slot whose stream started at time 6. -/
def oldSlotC : SseDataClient :=
  { clientId := 3, connected := true, timeOfFirstUpdate := 6,
    timeOfLastUpdate := 6, pageRequest := [] }

/-- Witness for C1, exercising the three admission scenarios: re-delivery
of handle 4 reuses slot 0; a new handle 9 with free slots goes to a
disconnected slot and is installed there; with the pool full, the new
handle lands on the slot attaining the smallest `timeOfFirstUpdate`. -/
theorem selectNextClient_admission_witness :
    ((SelectNextClient [trackedSlot, emptySlot, emptySlot] 100 (some 4)).1 =
      ((0 : Nat) : Int)) ∧
    ((([trackedSlot, emptySlot, emptySlot]).getD
        (SelectNextClient [trackedSlot, emptySlot, emptySlot] 100 (some 9)).1.toNat
        emptySlot).connected = false ∧
     (((SelectNextClient [trackedSlot, emptySlot, emptySlot] 100 (some 9)).2).getD
        (SelectNextClient [trackedSlot, emptySlot, emptySlot] 100 (some 9)).1.toNat
        emptySlot).clientId = 9) ∧
    ((∀ k, k < MAX_SSE_DATA_CLIENTS →
        (([trackedSlot, oldSlotB, oldSlotC]).getD
          (SelectNextClient [trackedSlot, oldSlotB, oldSlotC] 100 (some 9)).1.toNat
          emptySlot).timeOfFirstUpdate ≤
        (([trackedSlot, oldSlotB, oldSlotC]).getD k emptySlot).timeOfFirstUpdate) ∧
     (((SelectNextClient [trackedSlot, oldSlotB, oldSlotC] 100 (some 9)).2).getD
        (SelectNextClient [trackedSlot, oldSlotB, oldSlotC] 100 (some 9)).1.toNat
        emptySlot).clientId = 9) :=
  ⟨(selectNextClient_admission trackedSlot emptySlot emptySlot 100 4).2.1 0
      (by decide) (by decide) (by decide),
   (selectNextClient_admission trackedSlot emptySlot emptySlot 100 9).2.2.1
      (by decide) (by decide),
   (selectNextClient_admission trackedSlot oldSlotB oldSlotC 100 9).2.2.2
      (by decide) (by decide) (by decide)⟩

/-! ## Timestamp invariant (C10) -/

/-- C10: implicit timestamp invariant.  In every reachable slot state,
`timeOfFirstUpdate ≤ timeOfLastUpdate`, and both are past times
(`timeOfLastUpdate ≤ t` for the current clock `t`): the timestamps are
zeroed together on a page response and on a session timeout, set equal to
the current time when a stream starts, and only `timeOfLastUpdate` is
advanced — to the current, later time — by a push; so the timeout test
against `timeOfFirstUpdate` and the interval test against
`timeOfLastUpdate` always compare against valid, ordered past times. -/
theorem reach_timestamp_invariant (t : Nat) (s : SseDataClient)
    (h : Reach t s) :
    s.timeOfFirstUpdate ≤ s.timeOfLastUpdate ∧ s.timeOfLastUpdate ≤ t := by
  induction h with
  | init => exact ⟨Nat.le_refl 0, Nat.le_refl 0⟩
  | tick h hle ih => exact ⟨ih.1, Nat.le_trans ih.2 hle⟩
  | adopt hId h ih => exact ih
  | drop h ih => exact ih
  | read c h ih => exact ih
  | dispatch h ih =>
    simp only [dispatchRequest]
    split_ifs <;> simp_all <;> omega
  | update upd lim h ih =>
    simp only [UpdateEventStreamAtStreamInterval, pushStep, timeoutStep]
    split_ifs <;> simp_all <;> omega

/-- A connected slot that has accumulated the request text
`"event-stream"` byte by byte. -/
def streamReqSlot : SseDataClient :=
  { clientId := 7, connected := true, timeOfFirstUpdate := 0,
    timeOfLastUpdate := 0, pageRequest := ("event-stream").toList }

/-- The slot after the event-stream dispatch at time 5: streaming, both
timestamps 5. -/
def streamingSlot7 : SseDataClient :=
  { clientId := 7, connected := true, timeOfFirstUpdate := 5,
    timeOfLastUpdate := 5, pageRequest := [] }

/-- The streaming slot after a scheduler visit at time 200 pushed a
payload: `timeOfLastUpdate` advanced to 200, `timeOfFirstUpdate` still 5. -/
def pushedSlot7 : SseDataClient :=
  { clientId := 7, connected := true, timeOfFirstUpdate := 5,
    timeOfLastUpdate := 200, pageRequest := [] }

/-- A streaming state that has started a stream and taken a push is
reachable: adopt a connection, read the bytes of `"event-stream"`,
dispatch the completed head at time 5, then run a scheduler visit at
time 200 (interval 100 ms, limit 20 s) which pushes a payload. -/
theorem reach_pushedSlot7 : Reach 200 pushedSlot7 := by
  have h0 : Reach 0 { emptySlot with clientId := 7, connected := true } :=
    Reach.adopt 7 Reach.init
  have h1 : Reach 0 streamReqSlot := by
    have h := Reach.read 'm' (Reach.read 'a' (Reach.read 'e' (Reach.read 'r'
      (Reach.read 't' (Reach.read 's' (Reach.read '-' (Reach.read 't'
      (Reach.read 'n' (Reach.read 'e' (Reach.read 'v' (Reach.read 'e' h0)))))))))))
    convert h using 1
  have h2 : Reach 5 streamReqSlot := Reach.tick h1 (by omega)
  have h3 : Reach 5 streamingSlot7 := by
    have h := Reach.dispatch h2
    convert h using 1
  have h4 : Reach 200 streamingSlot7 := Reach.tick h3 (by omega)
  have h5 := Reach.update 100 20 h4
  convert h5 using 1

/-- Witness for C10 at a reachable streaming state: the stream started at
time 5 and the last push happened at time 200, so the timestamps are
ordered past times. -/
theorem reach_timestamp_invariant_witness :
    pushedSlot7.timeOfFirstUpdate ≤ pushedSlot7.timeOfLastUpdate ∧
    pushedSlot7.timeOfLastUpdate ≤ 200 :=
  reach_timestamp_invariant 200 pushedSlot7 reach_pushedSlot7

-- Sanity examples while developing (kept as anonymous examples).
example : containsToken pageToken ("GET / HTTP/1.1").toList = true := by decide
example : containsToken streamToken ("Accept: text/event-stream").toList = true := by decide
example : containsToken pageToken ("HELLO").toList = false := by decide
example : findBoundary true ("GET / HTTP/1.1\r\n\r\n").toList = some 17 := by decide
example : usub 20001 0 = 20001 := by decide
example :
    SelectCurrentClient [emptySlot, emptySlot,
      { emptySlot with clientId := 1, connected := true, timeOfFirstUpdate := 5 }] 0
      = (2, 2) := by decide
example :
    (SelectNextClient [{ emptySlot with clientId := 4, connected := true, timeOfFirstUpdate := 7 },
      emptySlot, emptySlot] 100 (some 9)).1 = 2 := by decide
example :
    (SelectNextClient [{ emptySlot with clientId := 4, connected := true, timeOfFirstUpdate := 7 },
      emptySlot, emptySlot] 100 (some 4)).1 = 0 := by decide
example :
    selectRun [{ emptySlot with clientId := 1, connected := true, timeOfFirstUpdate := 5 },
      { emptySlot with clientId := 2, connected := true, timeOfFirstUpdate := 9 },
      emptySlot] 0 3 = [1, 0, 1] := by decide
